import Mathlib

/-!
Verification of the AiLessonPlanner pipeline (src/app.py and src/main.py).

The repository is a four-stage pipeline: PDF text extraction, lesson-plan
generation through a remote chat-completion API, per-section illustration
generation through a remote image API, and PDF assembly with reportlab.
This file gives a shallow embedding of the pure data flow of both entry
points.  The remote services (the chat-completion endpoint, the image
endpoint) and the PDF parsing library (fitz) are modelled as oracle
parameters: an oracle answering `none` models a raised exception
(non-success HTTP status via raise_for_status, malformed payload, or a
parse error).  Strings are embedded as `List Char`; the Python string
methods used by the source (split, strip, endswith, membership) are
defined below with Python semantics.
-/

namespace AiLessonPlanner

/-- ASCII whitespace stripped by Python `str.strip()`
(space, tab, newline, carriage return, vertical tab, form feed). -/
def pyWhitespace (c : Char) : Bool :=
  c = ' ' || c = '\t' || c = '\n' || c = '\r' || c = '\x0b' || c = '\x0c'

/-- Python `s.strip()`: drop whitespace from both ends. -/
def pyStrip (s : List Char) : List Char :=
  ((s.dropWhile pyWhitespace).reverse.dropWhile pyWhitespace).reverse

/-- Python `s.split("\n\n")`: split on every non-overlapping occurrence of
the two-character separator, scanning left to right, keeping empty parts
(so the result is always nonempty, and `"".split("\n\n") == [""]`). -/
def splitBlankLines : List Char → List (List Char)
  | [] => [[]]
  | '\n' :: '\n' :: rest => [] :: splitBlankLines rest
  | c :: rest =>
    match splitBlankLines rest with
    | [] => [[c]]
    | b :: bs => (c :: b) :: bs

/-- Python `s.split("\n")`: split on every newline, keeping empty parts. -/
def splitNewlines : List Char → List (List Char)
  | [] => [[]]
  | '\n' :: rest => [] :: splitNewlines rest
  | c :: rest =>
    match splitNewlines rest with
    | [] => [[c]]
    | b :: bs => (c :: b) :: bs

/-- Python `s.split(":", 1)` on a string known to contain a colon:
the part before the first `:` and the part after it. -/
def splitFirstColon (s : List Char) : List Char × List Char :=
  (s.takeWhile (fun c => c ≠ ':'), (s.dropWhile (fun c => c ≠ ':')).drop 1)

/-- Decoded raster image bytes returned by the image-generation stage
(the PNG re-encoding produced by PIL in generate_image_from_text). -/
structure Img where
  bytes : List Nat
deriving DecidableEq

/-- A reportlab flowable appended to the `story` list by create_pdf.
`title` is the document title paragraph, `heading` a Heading2-styled
paragraph (carrying the exact text passed to `Paragraph`), `para` a
BodyText-styled paragraph, `bullets` a ListFlowable of bullet items,
`image` an embedded illustration recording the prompt it was generated
from, the generated image, and its display width and height in points. -/
inductive Flowable
  | title (text : List Char)
  | spacer (w h : Nat)
  | heading (text : List Char)
  | para (text : List Char)
  | bullets (items : List (List Char))
  | image (prompt : List Char) (img : Img) (width height : Nat)
deriving DecidableEq

/-- The flowables app.py's create_pdf appends for one colon-bearing
section, given the image generated for its body text
(src/app.py lines 155-172).  The body is always a single justified
paragraph; the image is 4x3 inches (288x216 points). -/
def sectionFlows_app (s : List Char) (img : Img) : List Flowable :=
  let heading := (splitFirstColon s).1
  let content := (splitFirstColon s).2
  [Flowable.heading (pyStrip heading ++ ":".toList),
   Flowable.spacer 1 12,
   Flowable.para (pyStrip content),
   Flowable.spacer 1 12,
   Flowable.image (pyStrip content) img 288 216,
   Flowable.spacer 1 24]

/-- The flowables main.py's create_pdf appends for one colon-bearing
section (src/main.py lines 140-165).  The heading is wrapped in bold
markup; a body whose stripped text contains a newline becomes a bullet
list (one item per line, each item stripped), otherwise a single
paragraph; the image is 8x3 inches (576x216 points). -/
def sectionFlows_main (s : List Char) (img : Img) : List Flowable :=
  let heading := (splitFirstColon s).1
  let content := (splitFirstColon s).2
  let stripped := pyStrip content
  [Flowable.heading ("<b>".toList ++ pyStrip heading ++ ":</b>".toList),
   Flowable.spacer 1 12,
   (if stripped.contains '\n' then
      Flowable.bullets ((splitNewlines stripped).map pyStrip)
    else
      Flowable.para stripped),
   Flowable.spacer 1 12,
   Flowable.image stripped img 576 216,
   Flowable.spacer 1 24]

/-- The section loop of app.py's create_pdf over the list of blocks,
with the image endpoint as oracle `gen` (none = the HTTP call or the
image decode raised).  Returns the flowables produced (none when a
raised exception aborted the loop, so no partial story survives) and
the list of prompts actually sent to the image endpoint, in call
order; after a failure no further block is processed. -/
def assemble_app (gen : List Char → Option Img) :
    List (List Char) → Option (List Flowable) × List (List Char)
  | [] => (some [], [])
  | s :: rest =>
    if s.contains ':' then
      let content := pyStrip (splitFirstColon s).2
      match gen content with
      | none => (none, [content])
      | some img =>
        let r := assemble_app gen rest
        (r.1.map (fun st => sectionFlows_app s img ++ st), content :: r.2)
    else assemble_app gen rest

/-- The section loop of main.py's create_pdf, as `assemble_app`. -/
def assemble_main (gen : List Char → Option Img) :
    List (List Char) → Option (List Flowable) × List (List Char)
  | [] => (some [], [])
  | s :: rest =>
    if s.contains ':' then
      let content := pyStrip (splitFirstColon s).2
      match gen content with
      | none => (none, [content])
      | some img =>
        let r := assemble_main gen rest
        (r.1.map (fun st => sectionFlows_main s img ++ st), content :: r.2)
    else assemble_main gen rest

/-- src/app.py create_pdf: title, spacer, then the section loop over
`lesson_plan.split("\n\n")`.  First component: the finished story
(none when an image-generation exception aborted the run); second:
the image prompts sent, in order. -/
def create_pdf_app (gen : List Char → Option Img) (lesson_plan : List Char) :
    Option (List Flowable) × List (List Char) :=
  let r := assemble_app gen (splitBlankLines lesson_plan)
  (r.1.map (fun st => Flowable.title "Lesson Plan".toList :: Flowable.spacer 1 24 :: st),
   r.2)

/-- src/main.py create_pdf, analogous to `create_pdf_app`. -/
def create_pdf_main (gen : List Char → Option Img) (lesson_plan : List Char) :
    Option (List Flowable) × List (List Char) :=
  let r := assemble_main gen (splitBlankLines lesson_plan)
  (r.1.map (fun st => Flowable.title "Lesson Plan".toList :: Flowable.spacer 1 24 :: st),
   r.2)

/-- The colon-bearing blocks of a lesson plan, in input order. -/
def colonBlocks (lesson_plan : List Char) : List (List Char) :=
  (splitBlankLines lesson_plan).filter (fun b => b.contains ':')

/-- The image prompt derived from one block: the stripped text after
the first colon. -/
def promptOf (b : List Char) : List Char :=
  pyStrip (splitFirstColon b).2

/-- The heading texts of a story, in order (titles are not headings). -/
def headingsOf (st : List Flowable) : List (List Char) :=
  st.filterMap (fun f => match f with | Flowable.heading t => some t | _ => none)

/-- A rendered section body: either one paragraph or a bullet list. -/
inductive RenderedBody
  | para (text : List Char)
  | bullets (items : List (List Char))
deriving DecidableEq

/-- The section bodies of a story, in order (the title paragraph is not
a body). -/
def bodiesOf (st : List Flowable) : List RenderedBody :=
  st.filterMap (fun f => match f with
    | Flowable.para t => some (RenderedBody.para t)
    | Flowable.bullets its => some (RenderedBody.bullets its)
    | _ => none)

/-- The prompts of the images embedded in a story, in order. -/
def imagePromptsOf (st : List Flowable) : List (List Char) :=
  st.filterMap (fun f => match f with | Flowable.image p _ _ _ => some p | _ => none)

/-- An image oracle that always succeeds, for concrete runs. -/
def genOk : List Char → Option Img := fun _ => some ⟨[]⟩

/-- The JSON body of the chat-completion request: model identifier, the
single user-role message content, and the max_tokens budget. -/
structure ChatRequest where
  model : List Char
  content : List Char
  max_tokens : Nat
deriving DecidableEq

/-- The model identifier both entry points send. -/
def llamaModel : List Char := "meta-llama/Meta-Llama-3-70B-Instruct".toList

/-- The f-string prompt of src/app.py generate_lesson_plan (lines 65-95):
the instructional template with the extracted text interpolated where
the source has the format placeholder. -/
def prompt_app (extracted_text : List Char) : List Char :=
  "\n        \nBased on the following textbook chapter content:\n\n".toList ++
  extracted_text ++
  ("\n\nPlease generate a comprehensive lesson plan for teachers, structured into three distinct sections:\n\nIntroduction: Create an engaging introduction that captures students\x27 attention and effectively introduces the key concepts of the chapter.\nOutput Format:\nParagraph: Start with a brief introduction to the key concept(s) of the chapter.\nKey Question: Pose an open-ended question to engage students and spark curiosity.\nTransition: Summarize the introduction and link it to the main body of the lesson.\n\nMain Body: Present the core lesson material in a clear and organized manner. Focus on detailed explanations and relevant real-world examples that facilitate student understanding of the chapter\x27s content. Ensure the material is logically sequenced.\nOutput Format:\nParagraph: Provide a detailed explanation of the key concept(s).\nBullet Points: List the critical components, definitions, or facts.\nDetailed Explanation: Describe the process or concept step-by-step.\nTransition: Conclude the main body and prepare the students for the class activity.\n\nClass Activity: Design an interactive class activity that reinforces the lesson objectives and promotes active participation. The activity should seamlessly connect back to both the introduction and the main body of the lesson.\nOutput Format:\n\nActivity Name: Provide a creative name for the activity.\nBullet Points: Describe the steps or materials required for the activity.\nObjective: Explain how the activity supports learning and connects to the chapter’s content.\nDebrief: Summarize the activity and link it back to the key concepts learned in the lesson.\nAdditionally, ensure that each section is well-structured and maintains contextual alignment with the others. For example, if I choose to regenerate the main body, it should not disrupt the coherence of the introduction and class activity. Similarly, any updates to the class activity should remain consistent with the themes presented in the other two sections.\n    3. Class Activity: Design an interactive class activity that reinforces the lesson objectives and promotes active participation.\n    ").toList

/-- The f-string prompt of src/main.py generate_lesson_plan (lines 50-77). -/
def prompt_main (extracted_text : List Char) : List Char :=
  "\n    Based on the following textbook chapter content:\n\n".toList ++
  extracted_text ++
  ("\n\nPlease generate a comprehensive lesson plan for teachers, structured into three distinct sections:\n\nIntroduction: Chapter name and Create an engaging introduction that captures students\x27 attention and effectively introduces the key concepts of the chapter.\nOutput Format:\nParagraph: Start with a brief introduction to the key concept(s) of the chapter.\nKey Question: Pose an open-ended question to engage students and spark curiosity.\nTransition: Summarize the introduction and link it to the main body of the lesson.\n\nMain Body: Present the core lesson material in a clear and organized manner. Focus on detailed explanations and relevant real-world examples that facilitate student understanding of the chapter\x27s content. Ensure the material is logically sequenced.\nOutput Format:\nParagraph: Provide a detailed explanation of the key concept(s).\nBullet Points: List the critical components, definitions, or facts.\nDetailed Explanation: Describe the process or concept step-by-step.\nTransition: Conclude the main body and prepare the students for the class activity.\n\nClass Activity: Design an interactive class activity that reinforces the lesson objectives and promotes active participation. The activity should seamlessly connect back to both the introduction and the main body of the lesson.\nOutput Format:\n\nActivity Name: Provide a creative name for the activity.\nBullet Points: Describe the steps or materials required for the activity.\nObjective: Explain how the activity supports learning and connects to the chapter’s content.\nDebrief: Summarize the activity and link it back to the key concepts learned in the lesson.\n    ").toList

/-- The chat-completion request src/app.py sends (lines 96-100):
max_tokens is 1000. -/
def chatRequest_app (extracted_text : List Char) : ChatRequest :=
  ⟨llamaModel, prompt_app extracted_text, 1000⟩

/-- The chat-completion request src/main.py sends (lines 79-83):
max_tokens is 10000. -/
def chatRequest_main (extracted_text : List Char) : ChatRequest :=
  ⟨llamaModel, prompt_main extracted_text, 10000⟩

/-- src/app.py generate_lesson_plan with the remote endpoint as oracle
`chat` (none = raise_for_status raised or the response shape was wrong);
returns the stripped completion content. -/
def generate_lesson_plan_app (chat : ChatRequest → Option (List Char))
    (extracted_text : List Char) : Option (List Char) :=
  (chat (chatRequest_app extracted_text)).map pyStrip

/-- src/main.py generate_lesson_plan, as `generate_lesson_plan_app`. -/
def generate_lesson_plan_main (chat : ChatRequest → Option (List Char))
    (extracted_text : List Char) : Option (List Char) :=
  (chat (chatRequest_main extracted_text)).map pyStrip

/-- An error surfaced by the FastAPI entry point: an explicit
HTTPException with status and detail, or an uncaught exception that
FastAPI turns into a generic server error. -/
inductive ApiError
  | http (status : Nat) (detail : List Char)
  | unhandled
deriving DecidableEq

/-- A pipeline step that actually ran: the local PDF-text extraction,
a chat-completion request, or one image-generation request. -/
inductive Step
  | extractText
  | chatCall (req : ChatRequest)
  | imageGen (prompt : List Char)
deriving DecidableEq

/-- src/app.py extract_text_from_pdf (lines 51-60), with fitz as oracle
`parse` giving the per-page texts of the uploaded bytes (none = fitz
raised).  On success the page texts are concatenated in page order with
no separator; on failure an HTTPException with status 500 is raised
(the source's detail appends the exception text, abstracted here). -/
def extract_text_from_pdf_app (parse : Option (List (List Char))) :
    Except ApiError (List Char) :=
  match parse with
  | some pages => Except.ok pages.flatten
  | none => Except.error (ApiError.http 500 "PDF extraction failed".toList)

/-- src/main.py extract_text_from_pdf (lines 35-45): same concatenation,
but a parse failure is caught, a user-visible st.error warning is shown
(the Bool), and the empty string is returned instead of raising. -/
def extract_text_from_pdf_main (parse : Option (List (List Char))) :
    List Char × Bool :=
  match parse with
  | some pages => (pages.flatten, false)
  | none => ([], true)

/-- src/app.py upload_and_generate_plan (lines 185-193), with the remote
services as oracles.  Returns the response — the finished story plus the
content-disposition filename, or the error — together with the pipeline
steps that ran, in order.  A filename not ending in ".pdf" is rejected
with status 400 before anything runs. -/
def upload_and_generate_plan (parse : Option (List (List Char)))
    (chat : ChatRequest → Option (List Char)) (gen : List Char → Option Img)
    (filename : List Char) :
    Except ApiError (List Flowable × List Char) × List Step :=
  if ".pdf".toList.isSuffixOf filename then
    match parse with
    | none => (Except.error (ApiError.http 500 "PDF extraction failed".toList),
               [Step.extractText])
    | some pages =>
      let extracted_text := pages.flatten
      let req := chatRequest_app extracted_text
      match chat req with
      | none => (Except.error ApiError.unhandled, [Step.extractText, Step.chatCall req])
      | some content =>
        let r := create_pdf_app gen (pyStrip content)
        match r.1 with
        | none => (Except.error ApiError.unhandled,
                   Step.extractText :: Step.chatCall req :: r.2.map Step.imageGen)
        | some story => (Except.ok (story, "lesson_plan.pdf".toList),
                         Step.extractText :: Step.chatCall req :: r.2.map Step.imageGen)
  else (Except.error (ApiError.http 400 "Only PDF files are allowed.".toList), [])

/-- The pipeline steps run by the streamlit script of src/main.py
(lines 200-219) once a file has been uploaded: extraction always runs;
the lesson-plan generation runs only when the extracted text is truthy
(nonempty); create_pdf runs only after the download button is pressed. -/
def interactive_steps (parse : Option (List (List Char)))
    (chat : ChatRequest → Option (List Char)) (gen : List Char → Option Img)
    (download : Bool) : List Step :=
  let extracted_text := (extract_text_from_pdf_main parse).1
  Step.extractText ::
    (if extracted_text = [] then []
     else
       let req := chatRequest_main extracted_text
       match chat req with
       | none => [Step.chatCall req]
       | some content =>
         if download then
           Step.chatCall req :: (create_pdf_main gen (pyStrip content)).2.map Step.imageGen
         else [Step.chatCall req])

/-- The body rendering main.py's create_pdf chooses for one block:
bullets when the stripped content has an internal newline, else one
paragraph. -/
def renderedBody_main (b : List Char) : RenderedBody :=
  if (promptOf b).contains '\n' then
    RenderedBody.bullets ((splitNewlines (promptOf b)).map pyStrip)
  else RenderedBody.para (promptOf b)

/-- The image prompts a lesson plan gives rise to: one per
colon-bearing block, in input order. -/
def promptsOf (lesson_plan : List Char) : List (List Char) :=
  (colonBlocks lesson_plan).map promptOf

/-- A chat oracle that always succeeds, for concrete runs. -/
def chatOk : ChatRequest → Option (List Char) :=
  fun _ => some "Intro: Hello\n\nBody: World\nWide".toList

/-- An image oracle that always fails, for concrete runs. -/
def genFail : List Char → Option Img := fun _ => none

/-! ### Helper lemmas -/

theorem headingsOf_append (a b : List Flowable) :
    headingsOf (a ++ b) = headingsOf a ++ headingsOf b :=
  List.filterMap_append _ _ _

theorem bodiesOf_append (a b : List Flowable) :
    bodiesOf (a ++ b) = bodiesOf a ++ bodiesOf b :=
  List.filterMap_append _ _ _

theorem imagePromptsOf_append (a b : List Flowable) :
    imagePromptsOf (a ++ b) = imagePromptsOf a ++ imagePromptsOf b :=
  List.filterMap_append _ _ _

theorem headingsOf_sectionFlows_app (s : List Char) (img : Img) :
    headingsOf (sectionFlows_app s img) = [pyStrip (splitFirstColon s).1 ++ ":".toList] :=
  rfl

theorem bodiesOf_sectionFlows_app (s : List Char) (img : Img) :
    bodiesOf (sectionFlows_app s img) = [RenderedBody.para (promptOf s)] :=
  rfl

theorem imagePromptsOf_sectionFlows_app (s : List Char) (img : Img) :
    imagePromptsOf (sectionFlows_app s img) = [promptOf s] :=
  rfl

theorem headingsOf_sectionFlows_main (s : List Char) (img : Img) :
    headingsOf (sectionFlows_main s img) =
      ["<b>".toList ++ pyStrip (splitFirstColon s).1 ++ ":</b>".toList] := by
  by_cases hc : '\n' ∈ pyStrip (splitFirstColon s).2 <;>
    simp [sectionFlows_main, headingsOf, hc]

theorem bodiesOf_sectionFlows_main (s : List Char) (img : Img) :
    bodiesOf (sectionFlows_main s img) = [renderedBody_main s] := by
  by_cases hc : '\n' ∈ pyStrip (splitFirstColon s).2 <;>
    simp [sectionFlows_main, bodiesOf, renderedBody_main, promptOf, hc]

theorem imagePromptsOf_sectionFlows_main (s : List Char) (img : Img) :
    imagePromptsOf (sectionFlows_main s img) = [promptOf s] := by
  by_cases hc : '\n' ∈ pyStrip (splitFirstColon s).2 <;>
    simp [sectionFlows_main, imagePromptsOf, promptOf, hc]

theorem assemble_app_nil (gen : List Char → Option Img) :
    assemble_app gen [] = (some [], []) := rfl

theorem assemble_main_nil (gen : List Char → Option Img) :
    assemble_main gen [] = (some [], []) := rfl

theorem assemble_app_cons_neg (gen : List Char → Option Img) (s : List Char)
    (rest : List (List Char)) (hc : s.contains ':' = false) :
    assemble_app gen (s :: rest) = assemble_app gen rest := by
  have hm : ':' ∉ s := by simpa using hc
  simp [assemble_app, hm]

theorem assemble_main_cons_neg (gen : List Char → Option Img) (s : List Char)
    (rest : List (List Char)) (hc : s.contains ':' = false) :
    assemble_main gen (s :: rest) = assemble_main gen rest := by
  have hm : ':' ∉ s := by simpa using hc
  simp [assemble_main, hm]

theorem assemble_app_cons_pos (gen : List Char → Option Img) (s : List Char)
    (rest : List (List Char)) (img : Img) (hc : s.contains ':' = true)
    (himg : gen (pyStrip (splitFirstColon s).2) = some img) :
    assemble_app gen (s :: rest) =
      ((assemble_app gen rest).1.map (fun st => sectionFlows_app s img ++ st),
       pyStrip (splitFirstColon s).2 :: (assemble_app gen rest).2) := by
  have hm : ':' ∈ s := by simpa using hc
  simp [assemble_app, hm, himg]

theorem assemble_main_cons_pos (gen : List Char → Option Img) (s : List Char)
    (rest : List (List Char)) (img : Img) (hc : s.contains ':' = true)
    (himg : gen (pyStrip (splitFirstColon s).2) = some img) :
    assemble_main gen (s :: rest) =
      ((assemble_main gen rest).1.map (fun st => sectionFlows_main s img ++ st),
       pyStrip (splitFirstColon s).2 :: (assemble_main gen rest).2) := by
  have hm : ':' ∈ s := by simpa using hc
  simp [assemble_main, hm, himg]

theorem assemble_app_cons_fail (gen : List Char → Option Img) (s : List Char)
    (rest : List (List Char)) (hc : s.contains ':' = true)
    (himg : gen (pyStrip (splitFirstColon s).2) = none) :
    assemble_app gen (s :: rest) = (none, [pyStrip (splitFirstColon s).2]) := by
  have hm : ':' ∈ s := by simpa using hc
  simp [assemble_app, hm, himg]

theorem assemble_main_cons_fail (gen : List Char → Option Img) (s : List Char)
    (rest : List (List Char)) (hc : s.contains ':' = true)
    (himg : gen (pyStrip (splitFirstColon s).2) = none) :
    assemble_main gen (s :: rest) = (none, [pyStrip (splitFirstColon s).2]) := by
  have hm : ':' ∈ s := by simpa using hc
  simp [assemble_main, hm, himg]

theorem assemble_app_ok (gen : List Char → Option Img) :
    ∀ blocks : List (List Char),
      (∀ p ∈ (blocks.filter (fun b => b.contains ':')).map promptOf, (gen p).isSome = true) →
      (assemble_app gen blocks).1.isSome = true ∧
      headingsOf ((assemble_app gen blocks).1.getD []) =
        (blocks.filter (fun b => b.contains ':')).map
          (fun b => pyStrip (splitFirstColon b).1 ++ ":".toList) ∧
      bodiesOf ((assemble_app gen blocks).1.getD []) =
        (blocks.filter (fun b => b.contains ':')).map
          (fun b => RenderedBody.para (promptOf b)) ∧
      imagePromptsOf ((assemble_app gen blocks).1.getD []) =
        (blocks.filter (fun b => b.contains ':')).map promptOf ∧
      (assemble_app gen blocks).2 =
        (blocks.filter (fun b => b.contains ':')).map promptOf := by
  intro blocks
  induction blocks with
  | nil =>
    intro _
    simp [assemble_app_nil, headingsOf, bodiesOf, imagePromptsOf]
  | cons s rest ih =>
    intro h
    cases hc : s.contains ':' with
    | false =>
      have hfil : List.filter (fun b => b.contains ':') (s :: rest) =
          List.filter (fun b => b.contains ':') rest :=
        List.filter_cons_of_neg (by simpa using hc)
      rw [assemble_app_cons_neg gen s rest hc, hfil]
      exact ih (by
        intro p hp
        exact h p (by rw [hfil]; exact hp))
    | true =>
      have hfil : List.filter (fun b => b.contains ':') (s :: rest) =
          s :: List.filter (fun b => b.contains ':') rest :=
        List.filter_cons_of_pos hc
      rw [hfil] at h ⊢
      have hp : (gen (pyStrip (splitFirstColon s).2)).isSome = true :=
        h _ (by simp [promptOf])
      obtain ⟨img, himg⟩ := Option.isSome_iff_exists.mp hp
      have ihh := ih (by
        intro p hpm
        exact h p (by simp only [List.map_cons, List.mem_cons]; exact Or.inr hpm))
      obtain ⟨st, hst⟩ := Option.isSome_iff_exists.mp ihh.1
      rw [hst] at ihh
      rw [assemble_app_cons_pos gen s rest img hc himg, hst]
      simp only [Option.map_some', Option.getD_some, Option.isSome_some, List.map_cons,
        Option.getD_some] at ihh ⊢
      refine ⟨trivial, ?_, ?_, ?_, ?_⟩
      · rw [headingsOf_append, headingsOf_sectionFlows_app, ihh.2.1]
        rfl
      · rw [bodiesOf_append, bodiesOf_sectionFlows_app, ihh.2.2.1]
        rfl
      · rw [imagePromptsOf_append, imagePromptsOf_sectionFlows_app, ihh.2.2.2.1]
        rfl
      · rw [ihh.2.2.2.2]
        rfl

theorem assemble_main_ok (gen : List Char → Option Img) :
    ∀ blocks : List (List Char),
      (∀ p ∈ (blocks.filter (fun b => b.contains ':')).map promptOf, (gen p).isSome = true) →
      (assemble_main gen blocks).1.isSome = true ∧
      headingsOf ((assemble_main gen blocks).1.getD []) =
        (blocks.filter (fun b => b.contains ':')).map
          (fun b => "<b>".toList ++ pyStrip (splitFirstColon b).1 ++ ":</b>".toList) ∧
      bodiesOf ((assemble_main gen blocks).1.getD []) =
        (blocks.filter (fun b => b.contains ':')).map renderedBody_main ∧
      imagePromptsOf ((assemble_main gen blocks).1.getD []) =
        (blocks.filter (fun b => b.contains ':')).map promptOf ∧
      (assemble_main gen blocks).2 =
        (blocks.filter (fun b => b.contains ':')).map promptOf := by
  intro blocks
  induction blocks with
  | nil =>
    intro _
    simp [assemble_main_nil, headingsOf, bodiesOf, imagePromptsOf]
  | cons s rest ih =>
    intro h
    cases hc : s.contains ':' with
    | false =>
      have hfil : List.filter (fun b => b.contains ':') (s :: rest) =
          List.filter (fun b => b.contains ':') rest :=
        List.filter_cons_of_neg (by simpa using hc)
      rw [assemble_main_cons_neg gen s rest hc, hfil]
      exact ih (by
        intro p hp
        exact h p (by rw [hfil]; exact hp))
    | true =>
      have hfil : List.filter (fun b => b.contains ':') (s :: rest) =
          s :: List.filter (fun b => b.contains ':') rest :=
        List.filter_cons_of_pos hc
      rw [hfil] at h ⊢
      have hp : (gen (pyStrip (splitFirstColon s).2)).isSome = true :=
        h _ (by simp [promptOf])
      obtain ⟨img, himg⟩ := Option.isSome_iff_exists.mp hp
      have ihh := ih (by
        intro p hpm
        exact h p (by simp only [List.map_cons, List.mem_cons]; exact Or.inr hpm))
      obtain ⟨st, hst⟩ := Option.isSome_iff_exists.mp ihh.1
      rw [hst] at ihh
      rw [assemble_main_cons_pos gen s rest img hc himg, hst]
      simp only [Option.map_some', Option.getD_some, Option.isSome_some, List.map_cons,
        Option.getD_some] at ihh ⊢
      refine ⟨trivial, ?_, ?_, ?_, ?_⟩
      · rw [headingsOf_append, headingsOf_sectionFlows_main, ihh.2.1]
        rfl
      · rw [bodiesOf_append, bodiesOf_sectionFlows_main, ihh.2.2.1]
        rfl
      · rw [imagePromptsOf_append, imagePromptsOf_sectionFlows_main, ihh.2.2.2.1]
        rfl
      · rw [ihh.2.2.2.2]
        rfl

theorem assemble_app_no_colon (gen : List Char → Option Img) :
    ∀ blocks : List (List Char), (∀ b ∈ blocks, b.contains ':' = false) →
      assemble_app gen blocks = (some [], []) := by
  intro blocks
  induction blocks with
  | nil => intro _; rfl
  | cons s rest ih =>
    intro h
    rw [assemble_app_cons_neg gen s rest (h s (by simp))]
    exact ih (fun b hb => h b (by simp [hb]))

theorem assemble_main_no_colon (gen : List Char → Option Img) :
    ∀ blocks : List (List Char), (∀ b ∈ blocks, b.contains ':' = false) →
      assemble_main gen blocks = (some [], []) := by
  intro blocks
  induction blocks with
  | nil => intro _; rfl
  | cons s rest ih =>
    intro h
    rw [assemble_main_cons_neg gen s rest (h s (by simp))]
    exact ih (fun b hb => h b (by simp [hb]))

theorem assemble_app_trace (gen : List Char → Option Img) :
    ∀ blocks : List (List Char),
      (assemble_app gen blocks).2 =
        ((blocks.filter (fun b => b.contains ':')).map promptOf).takeWhile
          (fun p => (gen p).isSome) ++
        (((blocks.filter (fun b => b.contains ':')).map promptOf).dropWhile
          (fun p => (gen p).isSome)).take 1 := by
  intro blocks
  induction blocks with
  | nil => rfl
  | cons s rest ih =>
    cases hc : s.contains ':' with
    | false =>
      have hfil : List.filter (fun b => b.contains ':') (s :: rest) =
          List.filter (fun b => b.contains ':') rest :=
        List.filter_cons_of_neg (by simpa using hc)
      rw [assemble_app_cons_neg gen s rest hc, hfil, ih]
    | true =>
      have hfil : List.filter (fun b => b.contains ':') (s :: rest) =
          s :: List.filter (fun b => b.contains ':') rest :=
        List.filter_cons_of_pos hc
      rw [hfil]
      cases himg : gen (pyStrip (splitFirstColon s).2) with
      | none =>
        rw [assemble_app_cons_fail gen s rest hc himg]
        simp [promptOf, List.takeWhile_cons, List.dropWhile_cons, himg]
      | some img =>
        rw [assemble_app_cons_pos gen s rest img hc himg]
        simp [promptOf, List.takeWhile_cons, List.dropWhile_cons, himg, ih]

theorem assemble_main_trace (gen : List Char → Option Img) :
    ∀ blocks : List (List Char),
      (assemble_main gen blocks).2 =
        ((blocks.filter (fun b => b.contains ':')).map promptOf).takeWhile
          (fun p => (gen p).isSome) ++
        (((blocks.filter (fun b => b.contains ':')).map promptOf).dropWhile
          (fun p => (gen p).isSome)).take 1 := by
  intro blocks
  induction blocks with
  | nil => rfl
  | cons s rest ih =>
    cases hc : s.contains ':' with
    | false =>
      have hfil : List.filter (fun b => b.contains ':') (s :: rest) =
          List.filter (fun b => b.contains ':') rest :=
        List.filter_cons_of_neg (by simpa using hc)
      rw [assemble_main_cons_neg gen s rest hc, hfil, ih]
    | true =>
      have hfil : List.filter (fun b => b.contains ':') (s :: rest) =
          s :: List.filter (fun b => b.contains ':') rest :=
        List.filter_cons_of_pos hc
      rw [hfil]
      cases himg : gen (pyStrip (splitFirstColon s).2) with
      | none =>
        rw [assemble_main_cons_fail gen s rest hc himg]
        simp [promptOf, List.takeWhile_cons, List.dropWhile_cons, himg]
      | some img =>
        rw [assemble_main_cons_pos gen s rest img hc himg]
        simp [promptOf, List.takeWhile_cons, List.dropWhile_cons, himg, ih]

theorem assemble_app_none_of_fail (gen : List Char → Option Img) :
    ∀ blocks : List (List Char), ∀ p,
      p ∈ (blocks.filter (fun b => b.contains ':')).map promptOf → gen p = none →
      (assemble_app gen blocks).1 = none := by
  intro blocks
  induction blocks with
  | nil => intro p hp _; simp at hp
  | cons s rest ih =>
    intro p hp hfail
    cases hc : s.contains ':' with
    | false =>
      have hfil : List.filter (fun b => b.contains ':') (s :: rest) =
          List.filter (fun b => b.contains ':') rest :=
        List.filter_cons_of_neg (by simpa using hc)
      rw [hfil] at hp
      rw [assemble_app_cons_neg gen s rest hc]
      exact ih p hp hfail
    | true =>
      have hfil : List.filter (fun b => b.contains ':') (s :: rest) =
          s :: List.filter (fun b => b.contains ':') rest :=
        List.filter_cons_of_pos hc
      rw [hfil, List.map_cons, List.mem_cons] at hp
      cases himg : gen (pyStrip (splitFirstColon s).2) with
      | none => rw [assemble_app_cons_fail gen s rest hc himg]
      | some img =>
        rw [assemble_app_cons_pos gen s rest img hc himg]
        rcases hp with hp | hp
        · rw [hp, promptOf] at hfail
          rw [hfail] at himg
          exact absurd himg (by simp)
        · simp [ih p hp hfail]

theorem assemble_main_none_of_fail (gen : List Char → Option Img) :
    ∀ blocks : List (List Char), ∀ p,
      p ∈ (blocks.filter (fun b => b.contains ':')).map promptOf → gen p = none →
      (assemble_main gen blocks).1 = none := by
  intro blocks
  induction blocks with
  | nil => intro p hp _; simp at hp
  | cons s rest ih =>
    intro p hp hfail
    cases hc : s.contains ':' with
    | false =>
      have hfil : List.filter (fun b => b.contains ':') (s :: rest) =
          List.filter (fun b => b.contains ':') rest :=
        List.filter_cons_of_neg (by simpa using hc)
      rw [hfil] at hp
      rw [assemble_main_cons_neg gen s rest hc]
      exact ih p hp hfail
    | true =>
      have hfil : List.filter (fun b => b.contains ':') (s :: rest) =
          s :: List.filter (fun b => b.contains ':') rest :=
        List.filter_cons_of_pos hc
      rw [hfil, List.map_cons, List.mem_cons] at hp
      cases himg : gen (pyStrip (splitFirstColon s).2) with
      | none => rw [assemble_main_cons_fail gen s rest hc himg]
      | some img =>
        rw [assemble_main_cons_pos gen s rest img hc himg]
        rcases hp with hp | hp
        · rw [hp, promptOf] at hfail
          rw [hfail] at himg
          exact absurd himg (by simp)
        · simp [ih p hp hfail]

theorem assemble_app_main_agree (gen : List Char → Option Img) :
    ∀ blocks : List (List Char),
      (assemble_app gen blocks).2 = (assemble_main gen blocks).2 ∧
      ((assemble_app gen blocks).1 = none ↔ (assemble_main gen blocks).1 = none) := by
  intro blocks
  induction blocks with
  | nil => exact ⟨rfl, by simp [assemble_app_nil, assemble_main_nil]⟩
  | cons s rest ih =>
    cases hc : s.contains ':' with
    | false =>
      rw [assemble_app_cons_neg gen s rest hc, assemble_main_cons_neg gen s rest hc]
      exact ih
    | true =>
      cases himg : gen (pyStrip (splitFirstColon s).2) with
      | none =>
        rw [assemble_app_cons_fail gen s rest hc himg,
          assemble_main_cons_fail gen s rest hc himg]
        exact ⟨rfl, Iff.rfl⟩
      | some img =>
        rw [assemble_app_cons_pos gen s rest img hc himg,
          assemble_main_cons_pos gen s rest img hc himg]
        refine ⟨by rw [ih.1], ?_⟩
        simpa using ih.2

theorem splitFirstColon_reconstruct :
    ∀ b : List Char, ':' ∈ b →
      (splitFirstColon b).1 ++ ':' :: (splitFirstColon b).2 = b := by
  intro b
  induction b with
  | nil => intro h; simp at h
  | cons c cs ih =>
    intro h
    by_cases hc : c = ':'
    · subst hc; simp [splitFirstColon]
    · have h' : ':' ∈ cs := by
        rcases List.mem_cons.mp h with h | h
        · exact absurd h.symm hc
        · exact h
      have h1 := ih h'
      simp only [splitFirstColon] at h1 ⊢
      simp only [List.takeWhile_cons, List.dropWhile_cons]
      simp [hc]
      simpa using h1

theorem splitFirstColon_head_no_colon (b : List Char) :
    ':' ∉ (splitFirstColon b).1 := by
  intro hmem
  simp only [splitFirstColon] at hmem
  have := List.mem_takeWhile_imp hmem
  simp at this

theorem headingsOf_title_spacer (t : List Char) (a b : Nat) (st : List Flowable) :
    headingsOf (Flowable.title t :: Flowable.spacer a b :: st) = headingsOf st := rfl

theorem bodiesOf_title_spacer (t : List Char) (a b : Nat) (st : List Flowable) :
    bodiesOf (Flowable.title t :: Flowable.spacer a b :: st) = bodiesOf st := rfl

theorem imagePromptsOf_title_spacer (t : List Char) (a b : Nat) (st : List Flowable) :
    imagePromptsOf (Flowable.title t :: Flowable.spacer a b :: st) = imagePromptsOf st := rfl

theorem create_pdf_app_eq (gen : List Char → Option Img) (lp : List Char)
    (st : List Flowable) (hst : (assemble_app gen (splitBlankLines lp)).1 = some st) :
    create_pdf_app gen lp =
      (some (Flowable.title "Lesson Plan".toList :: Flowable.spacer 1 24 :: st),
       (assemble_app gen (splitBlankLines lp)).2) := by
  simp [create_pdf_app, hst]

theorem create_pdf_main_eq (gen : List Char → Option Img) (lp : List Char)
    (st : List Flowable) (hst : (assemble_main gen (splitBlankLines lp)).1 = some st) :
    create_pdf_main gen lp =
      (some (Flowable.title "Lesson Plan".toList :: Flowable.spacer 1 24 :: st),
       (assemble_main gen (splitBlankLines lp)).2) := by
  simp [create_pdf_main, hst]

/-! ### Claims -/

/-- C1: for every lesson-plan text whose split on double-newline yields
exactly N colon-bearing blocks, create_pdf — in both entry points — emits
exactly N headings, N bodies and makes exactly N illustration-generation
calls, one per colon-bearing block in the order the blocks appear in the
input; every block containing no colon produces no heading, no body and no
illustration call.  (The image oracle is assumed to succeed, since the
claim describes a completed assembly run.) -/
theorem c1_assembler_counts (gen : List Char → Option Img) (lp : List Char)
    (hgen : ∀ p, (gen p).isSome = true) :
    ((create_pdf_app gen lp).1.isSome = true ∧
     headingsOf ((create_pdf_app gen lp).1.getD []) =
       (colonBlocks lp).map (fun b => pyStrip (splitFirstColon b).1 ++ ":".toList) ∧
     bodiesOf ((create_pdf_app gen lp).1.getD []) =
       (colonBlocks lp).map (fun b => RenderedBody.para (promptOf b)) ∧
     imagePromptsOf ((create_pdf_app gen lp).1.getD []) = promptsOf lp ∧
     (create_pdf_app gen lp).2 = promptsOf lp) ∧
    ((create_pdf_main gen lp).1.isSome = true ∧
     headingsOf ((create_pdf_main gen lp).1.getD []) =
       (colonBlocks lp).map
         (fun b => "<b>".toList ++ pyStrip (splitFirstColon b).1 ++ ":</b>".toList) ∧
     bodiesOf ((create_pdf_main gen lp).1.getD []) =
       (colonBlocks lp).map renderedBody_main ∧
     imagePromptsOf ((create_pdf_main gen lp).1.getD []) = promptsOf lp ∧
     (create_pdf_main gen lp).2 = promptsOf lp) := by
  have ha := assemble_app_ok gen (splitBlankLines lp) (fun p _ => hgen p)
  have hm := assemble_main_ok gen (splitBlankLines lp) (fun p _ => hgen p)
  obtain ⟨sta, hsta⟩ := Option.isSome_iff_exists.mp ha.1
  obtain ⟨stm, hstm⟩ := Option.isSome_iff_exists.mp hm.1
  rw [hsta] at ha
  rw [hstm] at hm
  simp only [Option.getD_some] at ha hm
  constructor
  · rw [create_pdf_app_eq gen lp sta hsta]
    simp only [colonBlocks, promptsOf, Option.isSome_some, Option.getD_some,
      headingsOf_title_spacer, bodiesOf_title_spacer, imagePromptsOf_title_spacer]
    exact ⟨trivial, ha.2.1, ha.2.2.1, ha.2.2.2.1, ha.2.2.2.2⟩
  · rw [create_pdf_main_eq gen lp stm hstm]
    simp only [colonBlocks, promptsOf, Option.isSome_some, Option.getD_some,
      headingsOf_title_spacer, bodiesOf_title_spacer, imagePromptsOf_title_spacer]
    exact ⟨trivial, hm.2.1, hm.2.2.1, hm.2.2.2.1, hm.2.2.2.2⟩

/-- C1 witness: the theorem applied to a concrete two-section plan with an
always-succeeding image oracle. -/
theorem c1_witness :
    (∀ p, (genOk p).isSome = true) ∧
    ((create_pdf_app genOk "Intro: Hello\n\nBody: World\nWide".toList).2 =
       promptsOf "Intro: Hello\n\nBody: World\nWide".toList ∧
     (create_pdf_main genOk "Intro: Hello\n\nBody: World\nWide".toList).2 =
       promptsOf "Intro: Hello\n\nBody: World\nWide".toList) :=
  ⟨fun _ => rfl,
   (c1_assembler_counts genOk "Intro: Hello\n\nBody: World\nWide".toList
      (fun _ => rfl)).1.2.2.2.2,
   (c1_assembler_counts genOk "Intro: Hello\n\nBody: World\nWide".toList
      (fun _ => rfl)).2.2.2.2.2⟩

/-- C9: a lesson-plan text none of whose blocks contains a colon (in
particular the empty text) still assembles successfully in both entry
points: the story is exactly the title and its spacer — no headings, no
bodies, no images — and no illustration-generation call is made. -/
theorem c9_no_colon_blocks (gen : List Char → Option Img) (lp : List Char)
    (h : ∀ b ∈ splitBlankLines lp, b.contains ':' = false) :
    create_pdf_app gen lp =
      (some [Flowable.title "Lesson Plan".toList, Flowable.spacer 1 24], []) ∧
    create_pdf_main gen lp =
      (some [Flowable.title "Lesson Plan".toList, Flowable.spacer 1 24], []) := by
  constructor
  · simp [create_pdf_app, assemble_app_no_colon gen _ h]
  · simp [create_pdf_main, assemble_main_no_colon gen _ h]

/-- C9 witness: the theorem applied to the empty lesson-plan text, with an
image oracle that always fails — no illustration call is attempted. -/
theorem c9_witness :
    (∀ b ∈ splitBlankLines ([] : List Char), b.contains ':' = false) ∧
    create_pdf_app genFail [] =
      (some [Flowable.title "Lesson Plan".toList, Flowable.spacer 1 24], []) :=
  ⟨by decide, (c9_no_colon_blocks genFail [] (by decide)).1⟩

/-- C5: when image generation fails for some section (the remote call or
the payload decode raises), the whole create_pdf run aborts in both entry
points — no partial story is produced — and the illustration calls made
are exactly those of the colon-bearing blocks up to and including the
first failing one: no later section is processed. -/
theorem c5_image_failure_aborts (gen : List Char → Option Img) (lp : List Char)
    (h : ∃ p ∈ promptsOf lp, gen p = none) :
    (create_pdf_app gen lp).1 = none ∧
    (create_pdf_main gen lp).1 = none ∧
    (create_pdf_app gen lp).2 =
      (promptsOf lp).takeWhile (fun p => (gen p).isSome) ++
        ((promptsOf lp).dropWhile (fun p => (gen p).isSome)).take 1 ∧
    (create_pdf_main gen lp).2 =
      (promptsOf lp).takeWhile (fun p => (gen p).isSome) ++
        ((promptsOf lp).dropWhile (fun p => (gen p).isSome)).take 1 := by
  obtain ⟨p, hp, hfail⟩ := h
  refine ⟨?_, ?_, ?_, ?_⟩
  · have := assemble_app_none_of_fail gen (splitBlankLines lp) p
      (by simpa [promptsOf, colonBlocks] using hp) hfail
    simp [create_pdf_app, this]
  · have := assemble_main_none_of_fail gen (splitBlankLines lp) p
      (by simpa [promptsOf, colonBlocks] using hp) hfail
    simp [create_pdf_main, this]
  · simpa [create_pdf_app, promptsOf, colonBlocks] using
      assemble_app_trace gen (splitBlankLines lp)
  · simpa [create_pdf_main, promptsOf, colonBlocks] using
      assemble_main_trace gen (splitBlankLines lp)

/-- C5 witness: with an always-failing image oracle and a two-section
plan, the run aborts and only the first section's prompt is ever sent. -/
theorem c5_witness :
    (∃ p ∈ promptsOf "A: b\n\nC: d".toList, genFail p = none) ∧
    ((create_pdf_app genFail "A: b\n\nC: d".toList).1 = none ∧
     (create_pdf_app genFail "A: b\n\nC: d".toList).2 =
       (promptsOf "A: b\n\nC: d".toList).takeWhile (fun p => (genFail p).isSome) ++
         ((promptsOf "A: b\n\nC: d".toList).dropWhile
           (fun p => (genFail p).isSome)).take 1) :=
  ⟨by decide,
   (c5_image_failure_aborts genFail "A: b\n\nC: d".toList (by decide)).1,
   (c5_image_failure_aborts genFail "A: b\n\nC: d".toList (by decide)).2.2.1⟩

/-- C7: a colon-bearing block is split at its first colon — the heading
part contains no colon and block = heading ++ ":" ++ body, so every later
colon stays in the body — and both assemblers render the
whitespace-trimmed heading and body parts. -/
theorem c7_first_colon_split (b : List Char) (h : b.contains ':' = true) :
    (splitFirstColon b).1 ++ ':' :: (splitFirstColon b).2 = b ∧
    (splitFirstColon b).1.contains ':' = false ∧
    ∀ img : Img,
      headingsOf (sectionFlows_app b img) =
        [pyStrip (splitFirstColon b).1 ++ ":".toList] ∧
      headingsOf (sectionFlows_main b img) =
        ["<b>".toList ++ pyStrip (splitFirstColon b).1 ++ ":</b>".toList] ∧
      bodiesOf (sectionFlows_app b img) =
        [RenderedBody.para (pyStrip (splitFirstColon b).2)] ∧
      imagePromptsOf (sectionFlows_app b img) = [pyStrip (splitFirstColon b).2] ∧
      imagePromptsOf (sectionFlows_main b img) = [pyStrip (splitFirstColon b).2] := by
  have h1 := splitFirstColon_reconstruct b (List.elem_iff.mp h)
  have h2 := splitFirstColon_head_no_colon b
  refine ⟨h1, ?_, ?_⟩
  · cases hcc : (splitFirstColon b).1.contains ':' with
    | false => rfl
    | true => exact absurd (List.elem_iff.mp hcc) h2
  · intro img
    exact ⟨headingsOf_sectionFlows_app b img, headingsOf_sectionFlows_main b img,
      bodiesOf_sectionFlows_app b img, imagePromptsOf_sectionFlows_app b img,
      imagePromptsOf_sectionFlows_main b img⟩

/-- C7 witness: the theorem applied to a block with two colons; the
second colon stays in the body. -/
theorem c7_witness :
    ("Note: a: b".toList.contains ':' = true) ∧
    (splitFirstColon "Note: a: b".toList).1 ++ ':' ::
        (splitFirstColon "Note: a: b".toList).2 = "Note: a: b".toList :=
  ⟨by decide, (c7_first_colon_split "Note: a: b".toList (by decide)).1⟩

/-- C2 counterexample: on the claim's own stubbed input, app.py's
create_pdf (part of the Document Assembler as claimed) renders the
newline-bearing body "World\nWide" as a single paragraph, not as the
two-item bulleted list the claim requires of every such body. -/
theorem c2_counterexample :
    bodiesOf ((create_pdf_app genOk "Intro: Hello\n\nBody: World\nWide".toList).1.getD []) =
      [RenderedBody.para "Hello".toList, RenderedBody.para "World\nWide".toList] ∧
    RenderedBody.bullets ["World".toList, "Wide".toList] ∉
      bodiesOf ((create_pdf_app genOk "Intro: Hello\n\nBody: World\nWide".toList).1.getD []) := by
  decide

/-- C2 (amended): in the interactive-mode assembler (main.py create_pdf)
a body whose stripped text contains an internal newline is rendered as a
bulleted list with one item per newline-separated line (item count equal
to line count) and a newline-free body as one paragraph; on the stubbed
input "Intro: Hello\n\nBody: World\nWide" it produces heading Intro with
paragraph Hello and heading Body with bullets [World, Wide], each section
followed by one generated image.  The API-mode assembler (app.py
create_pdf) instead renders every body as a single justified paragraph. -/
theorem c2_body_rendering :
    (∀ (b : List Char) (img : Img),
       bodiesOf (sectionFlows_main b img) = [renderedBody_main b] ∧
       ((promptOf b).contains '\n' = true →
         renderedBody_main b =
           RenderedBody.bullets ((splitNewlines (promptOf b)).map pyStrip) ∧
         ((splitNewlines (promptOf b)).map pyStrip).length =
           (splitNewlines (promptOf b)).length) ∧
       ((promptOf b).contains '\n' = false →
         renderedBody_main b = RenderedBody.para (promptOf b)) ∧
       bodiesOf (sectionFlows_app b img) = [RenderedBody.para (promptOf b)]) ∧
    create_pdf_main genOk "Intro: Hello\n\nBody: World\nWide".toList =
      (some [Flowable.title "Lesson Plan".toList, Flowable.spacer 1 24,
        Flowable.heading "<b>Intro:</b>".toList, Flowable.spacer 1 12,
        Flowable.para "Hello".toList, Flowable.spacer 1 12,
        Flowable.image "Hello".toList ⟨[]⟩ 576 216, Flowable.spacer 1 24,
        Flowable.heading "<b>Body:</b>".toList, Flowable.spacer 1 12,
        Flowable.bullets ["World".toList, "Wide".toList], Flowable.spacer 1 12,
        Flowable.image "World\nWide".toList ⟨[]⟩ 576 216, Flowable.spacer 1 24],
       ["Hello".toList, "World\nWide".toList]) := by
  constructor
  · intro b img
    refine ⟨bodiesOf_sectionFlows_main b img, ?_, ?_, bodiesOf_sectionFlows_app b img⟩
    · intro hnl
      refine ⟨?_, by simp⟩
      simp [renderedBody_main, (by simpa using hnl : '\n' ∈ promptOf b)]
    · intro hnl
      simp [renderedBody_main, (by simpa using hnl : '\n' ∉ promptOf b)]
  · decide

/-- C2 witness: the amended theorem applied to the block
"Body: World\nWide", whose body has an internal newline. -/
theorem c2_witness :
    ((promptOf "Body: World\nWide".toList).contains '\n' = true) ∧
    renderedBody_main "Body: World\nWide".toList =
      RenderedBody.bullets ["World".toList, "Wide".toList] := by
  refine ⟨by decide, ?_⟩
  rw [((c2_body_rendering.1 "Body: World\nWide".toList ⟨[]⟩).2.1 (by decide)).1]
  decide

/-- C3 counterexample: with identical remote responses, the two
create_pdf implementations disagree on the same lesson-plan text (app.py
renders the multiline body as a paragraph under a plain heading, main.py
as a bullet list under a bold heading with a different image size), so
the two entry points do not compute the same results. -/
theorem c3_counterexample :
    create_pdf_app genOk "Body: World\nWide".toList ≠
      create_pdf_main genOk "Body: World\nWide".toList := by
  decide

/-- C3 (amended): the two entry points wrap the same four-step pipeline
structure — the extractors agree on successfully parsed input, the
generators post-process equal remote responses identically, and the two
assemblers make identical illustration calls in the same order and
succeed or abort together — but the steps are not identical: the chat
requests differ (different prompt template, max_tokens 1000 vs 10000),
the assemblers render headings and multiline bodies differently, and the
extractors diverge on parse failure. -/
theorem c3_pipeline_refinement :
    (∀ pages : List (List Char),
       extract_text_from_pdf_app (some pages) =
         Except.ok (extract_text_from_pdf_main (some pages)).1) ∧
    (∀ (chat : ChatRequest → Option (List Char)) (e r : List Char),
       chat (chatRequest_app e) = some r → chat (chatRequest_main e) = some r →
       generate_lesson_plan_app chat e = generate_lesson_plan_main chat e) ∧
    (∀ (gen : List Char → Option Img) (lp : List Char),
       (create_pdf_app gen lp).2 = (create_pdf_main gen lp).2 ∧
       ((create_pdf_app gen lp).1 = none ↔ (create_pdf_main gen lp).1 = none)) ∧
    (∀ e : List Char, chatRequest_app e ≠ chatRequest_main e) := by
  refine ⟨fun pages => rfl, ?_, ?_, ?_⟩
  · intro chat e r h1 h2
    simp [generate_lesson_plan_app, generate_lesson_plan_main, h1, h2]
  · intro gen lp
    have h := assemble_app_main_agree gen (splitBlankLines lp)
    constructor
    · simpa [create_pdf_app, create_pdf_main] using h.1
    · simp only [create_pdf_app, create_pdf_main, Option.map_eq_none']
      exact h.2
  · intro e hEq
    have := congrArg ChatRequest.max_tokens hEq
    simp [chatRequest_app, chatRequest_main] at this

/-- C3 witness: the generator-agreement part applied to a concrete chat
oracle that answers both requests with the same response. -/
theorem c3_witness :
    chatOk (chatRequest_app []) = some "Intro: Hello\n\nBody: World\nWide".toList ∧
    chatOk (chatRequest_main []) = some "Intro: Hello\n\nBody: World\nWide".toList ∧
    generate_lesson_plan_app chatOk [] = generate_lesson_plan_main chatOk [] :=
  ⟨rfl, rfl, c3_pipeline_refinement.2.1 chatOk [] _ rfl rfl⟩

/-- C4: an upload whose filename does not end in ".pdf" is rejected by
the endpoint with an HTTP 400 error, and the step trace is empty: no
text extraction and no remote call has run. -/
theorem c4_reject_non_pdf (parse : Option (List (List Char)))
    (chat : ChatRequest → Option (List Char)) (gen : List Char → Option Img)
    (filename : List Char)
    (h : ".pdf".toList.isSuffixOf filename = false) :
    upload_and_generate_plan parse chat gen filename =
      (Except.error (ApiError.http 400 "Only PDF files are allowed.".toList), []) := by
  have hcond : ¬ (".pdf".toList.isSuffixOf filename = true) := by
    rw [h]
    exact Bool.false_ne_true
  simp only [upload_and_generate_plan]
  rw [if_neg hcond]

/-- C4 witness: the theorem applied to the filename "notes.txt". -/
theorem c4_witness :
    (".pdf".toList.isSuffixOf "notes.txt".toList = false) ∧
    upload_and_generate_plan none chatOk genOk "notes.txt".toList =
      (Except.error (ApiError.http 400 "Only PDF files are allowed.".toList), []) :=
  ⟨by decide, c4_reject_non_pdf none chatOk genOk "notes.txt".toList (by decide)⟩

/-- C6: on parse failure the API-mode extractor raises a 500-status
extraction error — and the endpoint then aborts the whole request with
that error, having run only the extraction step — while the
interactive-mode extractor returns the empty string with a user-visible
warning instead of raising; on successfully parsed input both return the
concatenated page text without raising. -/
theorem c6_extractor_divergence :
    (extract_text_from_pdf_app none =
       Except.error (ApiError.http 500 "PDF extraction failed".toList) ∧
     extract_text_from_pdf_main none = ([], true)) ∧
    (∀ pages : List (List Char),
       extract_text_from_pdf_app (some pages) = Except.ok pages.flatten ∧
       extract_text_from_pdf_main (some pages) = (pages.flatten, false)) ∧
    (∀ (chat : ChatRequest → Option (List Char)) (gen : List Char → Option Img)
       (filename : List Char), ".pdf".toList.isSuffixOf filename = true →
       upload_and_generate_plan none chat gen filename =
         (Except.error (ApiError.http 500 "PDF extraction failed".toList),
          [Step.extractText])) := by
  refine ⟨⟨rfl, rfl⟩, fun pages => ⟨rfl, rfl⟩, ?_⟩
  intro chat gen filename h
  simp only [upload_and_generate_plan]
  rw [if_pos h]

/-- C6 witness: the endpoint-abort part applied to a failing parse of an
upload named "c.pdf". -/
theorem c6_witness :
    (".pdf".toList.isSuffixOf "c.pdf".toList = true) ∧
    upload_and_generate_plan none chatOk genOk "c.pdf".toList =
      (Except.error (ApiError.http 500 "PDF extraction failed".toList),
       [Step.extractText]) :=
  ⟨by decide, c6_extractor_divergence.2.2 chatOk genOk "c.pdf".toList (by decide)⟩

/-- C8: extraction returns the concatenation of the page texts in page
order with no inserted separator (in both extractors); consequently
extending a document with additional pages never shortens the extracted
text, and extraction succeeds without raising on every successfully
parsed input. -/
theorem c8_extraction_monotone :
    ∀ pages extra : List (List Char),
      extract_text_from_pdf_app (some pages) = Except.ok pages.flatten ∧
      extract_text_from_pdf_main (some pages) = (pages.flatten, false) ∧
      pages.flatten.length ≤ ((pages ++ extra).flatten).length ∧
      (extract_text_from_pdf_app (some (pages ++ extra))).isOk = true := by
  intro pages extra
  refine ⟨rfl, rfl, ?_, rfl⟩
  rw [List.flatten_append, List.length_append]
  exact Nat.le_add_right _ _

/-- C10: in interactive mode the lesson-plan generator — and with it the
chat-completion remote call — never runs when the extracted text is the
empty string; both a parse failure (which degrades to "") and a
successfully parsed PDF with no extractable text yield empty extracted
text, hence no generation step. -/
theorem c10_no_generation_on_empty :
    (∀ (parse : Option (List (List Char))) (chat : ChatRequest → Option (List Char))
       (gen : List Char → Option Img) (download : Bool) (req : ChatRequest),
       (extract_text_from_pdf_main parse).1 = [] →
       Step.chatCall req ∉ interactive_steps parse chat gen download) ∧
    (extract_text_from_pdf_main none).1 = [] ∧
    (∀ pages : List (List Char), pages.flatten = [] →
       (extract_text_from_pdf_main (some pages)).1 = []) := by
  refine ⟨?_, rfl, ?_⟩
  · intro parse chat gen download req h
    simp [interactive_steps, h]
  · intro pages h
    simpa [extract_text_from_pdf_main] using h

/-- C10 witness: the theorem applied to a failing parse; the chat call
for the empty extracted text is absent from the step trace. -/
theorem c10_witness :
    ((extract_text_from_pdf_main none).1 = []) ∧
    Step.chatCall (chatRequest_main []) ∉ interactive_steps none chatOk genOk true :=
  ⟨rfl, c10_no_generation_on_empty.1 none chatOk genOk true (chatRequest_main []) rfl⟩

end AiLessonPlanner
